import Mathlib

/-!
Verification of the FitTrack landing-page client modules.

Shallow embedding of the JavaScript sources:
* `Carousel`  — `TestimonialsCarousel` (src/unnamed/part_000)
* `Analytics` — GA4 consent/queue/retry module (src/js/analytics.js)
* `LazyLoad`  — lazy image loading with retry (src/unnamed/part_001)
* `Nav`       — mobile navigation menu (src/js/navigation.js)

JS numbers used for slide arithmetic are modelled as `Int` (the code computes
`currentIndex - 1`, which may be negative before clamping); counters that are
only ever incremented are `Nat`.  DOM side effects that the claims talk about
(CSS classes, ARIA attributes, focus) are explicit record fields; purely
visual effects (CSS transforms) are not modelled.
-/

namespace Carousel

/-- Configuration subset of `this.config` relevant to navigation behaviour. -/
structure CarouselConfig where
  loop : Bool
  swipeThreshold : Int
  autoPlayEnabled : Bool
deriving DecidableEq, Repr

/-- Per-slide DOM state: the `is-active` class and the `aria-current`
attribute set by `updateUI` / `setupAccessibility`. -/
structure Slide where
  isActive : Bool
  ariaCurrent : Bool
deriving DecidableEq, Repr

/-- The carousel state: `this.state` together with the DOM attributes the
component owns (slides, dots, nav-button disabled flags). -/
structure CState where
  config : CarouselConfig
  slides : List Slide
  dots : List Bool
  currentIndex : Int
  isPlaying : Bool
  isDragging : Bool
  isTransitioning : Bool
  startX : Int
  currentX : Int
  autoPlayTimer : Bool
  prevDisabled : Bool
  nextDisabled : Bool
deriving DecidableEq, Repr

/-- `updateUI`: marks the slide (and dot) at `currentIndex` active and every
other one inactive, and enables/disables the nav buttons. -/
def updateUI (c : CState) : CState :=
  { c with
    slides := (List.range c.slides.length).map
      (fun (j : Nat) => if (j : Int) = c.currentIndex then
        { isActive := true, ariaCurrent := true }
      else
        { isActive := false, ariaCurrent := false }),
    dots := (List.range c.dots.length).map
      (fun (j : Nat) => decide ((j : Int) = c.currentIndex)),
    prevDisabled := !(c.config.loop || 0 < c.currentIndex),
    nextDisabled := !(c.config.loop || c.currentIndex < (c.slides.length : Int) - 1) }

/-- `goToSlide(index)`: guarded direct navigation.  `updateSlidePosition(true)`
only touches the track transform, so it does not appear here. -/
def goToSlide (c : CState) (index : Int) : CState :=
  if index = c.currentIndex ∨ c.isTransitioning then c
  else if index < 0 ∨ (c.slides.length : Int) ≤ index then c
  else updateUI { c with currentIndex := index, isTransitioning := true }

/-- `goToPrevious()`. -/
def goToPrevious (c : CState) : CState :=
  if c.isTransitioning then c
  else
    let newIndex := c.currentIndex - 1
    let newIndex :=
      if newIndex < 0 then
        (if c.config.loop then (c.slides.length : Int) - 1 else 0)
      else newIndex
    goToSlide c newIndex

/-- `goToNext()`. -/
def goToNext (c : CState) : CState :=
  if c.isTransitioning then c
  else
    let newIndex := c.currentIndex + 1
    let newIndex :=
      if (c.slides.length : Int) ≤ newIndex then
        (if c.config.loop then 0 else (c.slides.length : Int) - 1)
      else newIndex
    goToSlide c newIndex

/-- `handleTransitionEnd()`. -/
def handleTransitionEnd (c : CState) : CState :=
  { c with isTransitioning := false }

/-- `startAutoPlay()` (the timer is modelled as the boolean
`autoPlayTimer`). -/
def startAutoPlay (c : CState) : CState :=
  if !c.config.autoPlayEnabled || c.autoPlayTimer then c
  else { c with autoPlayTimer := true }

/-- `stopAutoPlay()`. -/
def stopAutoPlay (c : CState) : CState :=
  if c.autoPlayTimer then { c with autoPlayTimer := false } else c

/-- `resetAutoPlay()`. -/
def resetAutoPlay (c : CState) : CState :=
  if c.isPlaying then startAutoPlay (stopAutoPlay c) else c

/-- `handleTouchStart(event)` with touch x-coordinate `x`. -/
def handleTouchStart (c : CState) (x : Int) : CState :=
  if c.isTransitioning then c
  else stopAutoPlay { c with isDragging := true, startX := x, currentX := x }

/-- `handleTouchMove(event)` with touch x-coordinate `x` (the visual
transform feedback is not modelled). -/
def handleTouchMove (c : CState) (x : Int) : CState :=
  if !c.isDragging then c else { c with currentX := x }

/-- `handleTouchEnd()`: swipe resolution against `config.swipeThreshold`. -/
def handleTouchEnd (c : CState) : CState :=
  if !c.isDragging then c
  else
    let c1 := { c with isDragging := false }
    let deltaX := c1.currentX - c1.startX
    let c2 :=
      if c1.config.swipeThreshold < |deltaX| then
        (if 0 < deltaX then goToPrevious c1 else goToNext c1)
      else c1
    resetAutoPlay c2

/-- `play()`. -/
def play (c : CState) : CState :=
  startAutoPlay { c with isPlaying := true }

/-- `pause()`. -/
def pause (c : CState) : CState :=
  stopAutoPlay { c with isPlaying := false }

/-- Operations a user / timer can trigger on the carousel. -/
inductive Op where
  | slide (index : Int)
  | next
  | prev
  | touchStart (x : Int)
  | touchMove (x : Int)
  | touchEnd
  | transitionEnd
  | autoplayTick
  | doPlay
  | doPause
deriving DecidableEq, Repr

/-- One step of the carousel state machine (the autoplay tick runs
`goToNext`, as in the `setInterval` callback of `startAutoPlay`). -/
def step (c : CState) : Op → CState
  | .slide i => goToSlide c i
  | .next => goToNext c
  | .prev => goToPrevious c
  | .touchStart x => handleTouchStart c x
  | .touchMove x => handleTouchMove c x
  | .touchEnd => handleTouchEnd c
  | .transitionEnd => handleTransitionEnd c
  | .autoplayTick => goToNext c
  | .doPlay => play c
  | .doPause => pause c

/-- Carousel constructed on a container with `n` slides (and `n` dots):
the initial state of the constructor followed by the `updateUI` call in
`init`. -/
def mkCarousel (cfg : CarouselConfig) (n : Nat) : CState :=
  updateUI
    { config := cfg, slides := List.replicate n { isActive := false, ariaCurrent := false },
      dots := List.replicate n false, currentIndex := 0,
      isPlaying := cfg.autoPlayEnabled, isDragging := false, isTransitioning := false,
      startX := 0, currentX := 0, autoPlayTimer := false,
      prevDisabled := false, nextDisabled := false }

/-- The documented data-model invariant `0 ≤ currentIndex < slideCount`. -/
def CIdxInv (c : CState) : Prop :=
  0 ≤ c.currentIndex ∧ c.currentIndex < (c.slides.length : Int)

instance (c : CState) : Decidable (CIdxInv c) := by
  unfold CIdxInv; infer_instance

theorem updateUI_currentIndex (c : CState) :
    (updateUI c).currentIndex = c.currentIndex := rfl

theorem updateUI_slides_length (c : CState) :
    (updateUI c).slides.length = c.slides.length := by
  simp only [updateUI, List.length_map, List.length_range]

theorem goToSlide_inv (c : CState) (i : Int) (h : CIdxInv c) :
    CIdxInv (goToSlide c i) := by
  unfold goToSlide
  split
  · exact h
  · split
    · exact h
    · rename_i hlt
      push_neg at hlt
      constructor
      · simpa only [CIdxInv, updateUI] using hlt.1
      · simpa only [CIdxInv, updateUI, List.length_map, List.length_range] using hlt.2

theorem goToPrevious_inv (c : CState) (h : CIdxInv c) :
    CIdxInv (goToPrevious c) := by
  unfold goToPrevious
  split
  · exact h
  · exact goToSlide_inv _ _ h

theorem goToNext_inv (c : CState) (h : CIdxInv c) :
    CIdxInv (goToNext c) := by
  unfold goToNext
  split
  · exact h
  · exact goToSlide_inv _ _ h

theorem stopAutoPlay_inv (c : CState) (h : CIdxInv c) :
    CIdxInv (stopAutoPlay c) := by
  unfold stopAutoPlay
  split <;> exact h

theorem startAutoPlay_inv (c : CState) (h : CIdxInv c) :
    CIdxInv (startAutoPlay c) := by
  unfold startAutoPlay
  split <;> exact h

theorem resetAutoPlay_inv (c : CState) (h : CIdxInv c) :
    CIdxInv (resetAutoPlay c) := by
  unfold resetAutoPlay
  split
  · exact startAutoPlay_inv _ (stopAutoPlay_inv _ h)
  · exact h

theorem step_inv (c : CState) (op : Op) (h : CIdxInv c) :
    CIdxInv (step c op) := by
  cases op with
  | slide i => exact goToSlide_inv _ _ h
  | next => exact goToNext_inv _ h
  | prev => exact goToPrevious_inv _ h
  | touchStart x =>
      show CIdxInv (handleTouchStart c x)
      unfold handleTouchStart
      split
      · exact h
      · exact stopAutoPlay_inv _ h
  | touchMove x =>
      show CIdxInv (handleTouchMove c x)
      unfold handleTouchMove
      split <;> exact h
  | touchEnd =>
      show CIdxInv (handleTouchEnd c)
      unfold handleTouchEnd
      split
      · exact h
      · apply resetAutoPlay_inv
        split
        · split
          · exact goToPrevious_inv _ h
          · exact goToNext_inv _ h
        · exact h
  | transitionEnd => exact h
  | autoplayTick => exact goToNext_inv _ h
  | doPlay => exact startAutoPlay_inv _ h
  | doPause => exact stopAutoPlay_inv _ h

theorem mkCarousel_inv (cfg : CarouselConfig) (n : Nat) (h : 0 < n) :
    CIdxInv (mkCarousel cfg n) := by
  constructor
  · simp only [mkCarousel, updateUI]
    exact le_refl 0
  · simp only [mkCarousel, updateUI, List.length_map, List.length_range,
      List.length_replicate]
    exact_mod_cast h

theorem foldl_step_inv (ops : List Op) (c : CState) (h : CIdxInv c) :
    CIdxInv (ops.foldl step c) := by
  induction ops generalizing c with
  | nil => exact h
  | cons op rest ih => exact ih _ (step_inv _ _ h)

theorem countP_active_range (n : Nat) (i : Int) (h3 : 0 ≤ i) (h4 : i < (n : Int)) :
    (List.range n).countP (fun (j : Nat) => decide ((j : Int) = i)) = 1 := by
  induction n with
  | zero =>
      exfalso
      have hz : i < 0 := by exact_mod_cast h4
      omega
  | succ m ih =>
      rw [List.range_succ, List.countP_append]
      by_cases hmi : (m : Int) = i
      · have h0 : (List.range m).countP (fun (j : Nat) => decide ((j : Int) = i)) = 0 := by
          rw [List.countP_eq_zero]
          intro a ha
          rw [List.mem_range] at ha
          simp only [decide_eq_true_eq]
          intro hc
          rw [← hmi] at hc
          have haa : a = m := by exact_mod_cast hc
          omega
        rw [h0]
        simp [hmi]
      · have h4m : i < (m : Int) := by
          have hlt : i < (m : Int) + 1 := by push_cast at h4; omega
          omega
        rw [ih h4m]
        simp [hmi]

/-- C1: for every carousel with at least one slide and every valid slide
index `i` (`0 ≤ i < slideCount`) with `i` different from the current index,
`goToSlide i` while not transitioning sets `currentIndex` to `i` and, after
the `updateUI` call, exactly one slide — the one at index `i` — carries the
`is-active` class and the `aria-current` attribute. -/
theorem carousel_goToSlide_valid_marks_one_active (c : CState) (i : Int)
    (h1 : c.isTransitioning = false) (h2 : i ≠ c.currentIndex)
    (h3 : 0 ≤ i) (h4 : i < (c.slides.length : Int)) :
    (goToSlide c i).currentIndex = i ∧
    (goToSlide c i).slides = (List.range c.slides.length).map
      (fun (j : Nat) => if (j : Int) = i then
        { isActive := true, ariaCurrent := true }
      else
        { isActive := false, ariaCurrent := false }) ∧
    ((goToSlide c i).slides.countP (fun sl => sl.isActive)) = 1 := by
  have hcond1 : ¬(i = c.currentIndex ∨ c.isTransitioning = true) := by
    simp [h1, h2]
  have hcond2 : ¬(i < 0 ∨ (c.slides.length : Int) ≤ i) := by
    push_neg
    exact ⟨h3, h4⟩
  have hstep : goToSlide c i =
      updateUI { c with currentIndex := i, isTransitioning := true } := by
    unfold goToSlide
    rw [if_neg, if_neg hcond2]
    simpa using hcond1
  refine ⟨by rw [hstep]; rfl, by rw [hstep]; rfl, ?_⟩
  rw [hstep]
  show ((List.range c.slides.length).map
      (fun (j : Nat) => if (j : Int) = i then
        ({ isActive := true, ariaCurrent := true } : Slide)
      else
        { isActive := false, ariaCurrent := false })).countP (fun sl => sl.isActive) = 1
  rw [List.countP_map]
  have hf : ((fun (sl : Slide) => sl.isActive) ∘
      (fun (j : Nat) => if (j : Int) = i then
        ({ isActive := true, ariaCurrent := true } : Slide)
      else
        { isActive := false, ariaCurrent := false })) =
      fun (j : Nat) => decide ((j : Int) = i) := by
    funext j
    by_cases hj : (j : Int) = i <;> simp [hj]
  rw [hf]
  exact countP_active_range _ _ h3 h4

/-- Shared demo configuration: the options `initTestimonialsCarousels`
passes to the constructor (loop enabled, swipe threshold 50, autoplay on). -/
def cfgDemo : CarouselConfig :=
  { loop := true, swipeThreshold := 50, autoPlayEnabled := true }

theorem carousel_goToSlide_valid_marks_one_active_witness :
    (mkCarousel cfgDemo 3).isTransitioning = false ∧
    (2 : Int) ≠ (mkCarousel cfgDemo 3).currentIndex ∧
    (0 : Int) ≤ 2 ∧ (2 : Int) < ((mkCarousel cfgDemo 3).slides.length : Int) ∧
    ((goToSlide (mkCarousel cfgDemo 3) 2).currentIndex = 2 ∧
     (goToSlide (mkCarousel cfgDemo 3) 2).slides =
       (List.range (mkCarousel cfgDemo 3).slides.length).map
         (fun (j : Nat) => if (j : Int) = 2 then
           { isActive := true, ariaCurrent := true }
         else
           { isActive := false, ariaCurrent := false }) ∧
     ((goToSlide (mkCarousel cfgDemo 3) 2).slides.countP (fun sl => sl.isActive)) = 1) :=
  ⟨by decide, by decide, by decide, by decide,
   carousel_goToSlide_valid_marks_one_active (mkCarousel cfgDemo 3) 2
     (by decide) (by decide) (by decide) (by decide)⟩

/-- C7: for a carousel with 3 slides and looping enabled, `goToPrevious` at
index 0 lands on index 2, and `goToNext` at index 2 lands on index 0. -/
theorem carousel_three_slide_loop_wraps :
    (goToPrevious (mkCarousel cfgDemo 3)).currentIndex = 2 ∧
    (goToNext (handleTransitionEnd (goToSlide (mkCarousel cfgDemo 3) 2))).currentIndex = 0 := by
  decide

/-- C8: starting from the initial state (`currentIndex = 0`), every sequence
of carousel operations preserves the invariant `0 ≤ currentIndex < slideCount`. -/
theorem carousel_index_invariant (cfg : CarouselConfig) (n : Nat) (ops : List Op)
    (h : 0 < n) :
    CIdxInv (ops.foldl step (mkCarousel cfg n)) :=
  foldl_step_inv ops _ (mkCarousel_inv cfg n h)

theorem carousel_index_invariant_witness :
    0 < 3 ∧
    CIdxInv ([Op.prev, Op.slide 2, Op.transitionEnd, Op.next, Op.touchStart 10,
      Op.touchMove 120, Op.touchEnd].foldl step (mkCarousel cfgDemo 3)) :=
  ⟨by decide,
   carousel_index_invariant cfgDemo 3
     [Op.prev, Op.slide 2, Op.transitionEnd, Op.next, Op.touchStart 10,
      Op.touchMove 120, Op.touchEnd] (by decide)⟩

/-- C9: while `isTransitioning` is true, `goToSlide`, `goToNext`,
`goToPrevious` and `handleTouchStart` are all no-ops: the whole carousel
state is left unchanged, so in particular no new transition starts. -/
theorem carousel_transitioning_blocks_navigation (c : CState) (i x : Int)
    (h : c.isTransitioning = true) :
    goToSlide c i = c ∧ goToNext c = c ∧ goToPrevious c = c ∧
    handleTouchStart c x = c := by
  refine ⟨?_, ?_, ?_, ?_⟩
  · unfold goToSlide
    rw [if_pos (Or.inr h)]
  · unfold goToNext
    rw [if_pos h]
  · unfold goToPrevious
    rw [if_pos h]
  · unfold handleTouchStart
    rw [if_pos h]

/-- A state mid-transition: `goToSlide` has just run, `transitionend` has not
yet fired. -/
def demoTransitioning : CState := goToSlide (mkCarousel cfgDemo 3) 1

theorem carousel_transitioning_blocks_navigation_witness :
    demoTransitioning.isTransitioning = true ∧
    (goToSlide demoTransitioning 2 = demoTransitioning ∧
     goToNext demoTransitioning = demoTransitioning ∧
     goToPrevious demoTransitioning = demoTransitioning ∧
     handleTouchStart demoTransitioning 7 = demoTransitioning) :=
  ⟨by decide, carousel_transitioning_blocks_navigation demoTransitioning 2 7 (by decide)⟩

end Carousel

namespace Analytics

/-- `CONFIG.retryAttempts`. -/
def retryAttempts : Nat := 3

/-- `CONFIG.retryDelay` (milliseconds). -/
def retryDelay : Nat := 1000

/-- `CONFIG.consentExpiryDays`: retention window added to the current time
when a consent decision is stored (time is abstract, measured in days). -/
def consentExpiryDays : Nat := 365

/-- `shouldLoadByDefault()`: always `false` (explicit consent required). -/
def shouldLoadByDefault : Bool := false

/-- The JSON object persisted under `CONFIG.consentStorageKey`. -/
structure ConsentRecord where
  consent : Bool
  expiry : Nat
deriving DecidableEq, Repr

/-- The parameters object of a tracked event: opaque caller data plus the
`timestamp` field `trackEvent` always (re)writes. -/
structure EventParams where
  data : String
  timestamp : Nat
deriving DecidableEq, Repr

/-- An entry of `state.eventQueue` (also used for delivered events). -/
structure QueuedEvent where
  eventName : String
  eventParams : EventParams
deriving DecidableEq, Repr

/-- The module state `state` of analytics.js plus the two external pieces the
module owns: the persisted consent record (localStorage) and the list of
events actually delivered (gtag / sendBeacon calls), in delivery order.
`scriptPending` models a gtag `<script>` element whose onload/onerror has not
fired yet; `pendingRetryDelay` models a scheduled retry `setTimeout` and
remembers its delay. -/
structure AState where
  initialized : Bool
  consentGiven : Bool
  blocked : Bool
  loadAttempts : Nat
  eventQueue : List QueuedEvent
  sentEvents : List QueuedEvent
  scriptPending : Bool
  pendingRetryDelay : Option Nat
  storage : Option ConsentRecord
deriving DecidableEq, Repr

/-- `trackEvent(eventName, eventParams)` at current time `now`: validates the
name, stamps the params, then queues (not ready or blocked) or sends. -/
def trackEvent (s : AState) (eventName : String) (paramsData : String)
    (now : Nat) : AState :=
  if eventName = "" then s
  else
    let p : EventParams := { data := paramsData, timestamp := now }
    if !s.consentGiven || s.blocked then
      { s with eventQueue := s.eventQueue ++ [{ eventName := eventName, eventParams := p }] }
    else
      { s with sentEvents := s.sentEvents ++ [{ eventName := eventName, eventParams := p }] }

/-- `processQueuedEvents()`: snapshots the queue, clears it, and re-feeds
every entry through `trackEvent`. -/
def processQueuedEvents (s : AState) (now : Nat) : AState :=
  if s.eventQueue = [] then s
  else
    s.eventQueue.foldl
      (fun st it => trackEvent st it.eventName it.eventParams.data now)
      { s with eventQueue := [] }

/-- The synchronous part of `loadGtagScript()`: either gives up (attempts
exhausted → Blocked, queue processed) or starts one more script load. -/
def loadGtagScript (s : AState) (now : Nat) : AState :=
  if retryAttempts ≤ s.loadAttempts then
    processQueuedEvents { s with blocked := true } now
  else
    { s with loadAttempts := s.loadAttempts + 1, scriptPending := true }

/-- The `script.onload` handler. -/
def scriptOnload (s : AState) (now : Nat) : AState :=
  processQueuedEvents { s with blocked := false, scriptPending := false } now

/-- The `script.onerror` handler (also triggered by the load timeout):
schedule a linearly growing retry or give up and go Blocked. -/
def scriptOnerror (s : AState) (now : Nat) : AState :=
  if s.loadAttempts < retryAttempts then
    { s with scriptPending := false,
             pendingRetryDelay := some (retryDelay * s.loadAttempts) }
  else
    processQueuedEvents { s with blocked := true, scriptPending := false } now

/-- The scheduled retry timer firing: calls `loadGtagScript` again. -/
def retryTimerFire (s : AState) (now : Nat) : AState :=
  loadGtagScript { s with pendingRetryDelay := none } now

/-- `storeConsent(granted)` at current time `now`. -/
def storeConsent (s : AState) (granted : Bool) (now : Nat) : AState :=
  { s with storage := some { consent := granted, expiry := now + consentExpiryDays } }

/-- `updateConsent(granted)` at current time `now`. -/
def updateConsent (s : AState) (granted : Bool) (now : Nat) : AState :=
  let s1 := storeConsent { s with consentGiven := granted } granted now
  let s2 :=
    if granted && !s1.blocked && s1.loadAttempts == 0 then loadGtagScript s1 now
    else s1
  if granted then processQueuedEvents s2 now else s2

/-- `getStoredConsent()`: reads the persisted record at time `now`, removing
it when expired; returns the decoded consent (or `none`) together with the
storage contents after the read. -/
def getStoredConsent (store : Option ConsentRecord) (now : Nat) :
    Option Bool × Option ConsentRecord :=
  match store with
  | none => (none, none)
  | some r => if now < r.expiry then (some r.consent, some r) else (none, none)

/-- The module-scope `state` object before `init` runs, over a given
localStorage content. -/
def initialState (store : Option ConsentRecord) : AState :=
  { initialized := false, consentGiven := false, blocked := false,
    loadAttempts := 0, eventQueue := [], sentEvents := [],
    scriptPending := false, pendingRetryDelay := none, storage := store }

/-- `init()` at time `now` over localStorage content `store`. -/
def init (store : Option ConsentRecord) (now : Nat) : AState :=
  let s0 := initialState store
  let res := getStoredConsent s0.storage now
  let sc := (match res.1 with
    | some c => c
    | none => s0.consentGiven)
  let s1 := { s0 with storage := res.2, consentGiven := sc }
  let s2 := if s1.consentGiven || shouldLoadByDefault then loadGtagScript s1 now else s1
  { s2 with initialized := true }

/-- Externally triggerable events of the analytics client. -/
inductive AStep where
  | track (eventName : String) (paramsData : String) (now : Nat)
  | consent (granted : Bool) (now : Nat)
  | scriptOk (now : Nat)
  | scriptFail (now : Nat)
  | timerFire (now : Nat)
deriving DecidableEq, Repr

/-- One step of the analytics client: script callbacks only fire while a
script is in flight, the retry timer only while one is scheduled. -/
def astep (s : AState) : AStep → AState
  | .track n p now => trackEvent s n p now
  | .consent g now => updateConsent s g now
  | .scriptOk now => if s.scriptPending then scriptOnload s now else s
  | .scriptFail now => if s.scriptPending then scriptOnerror s now else s
  | .timerFire now =>
      match s.pendingRetryDelay with
      | some _ => retryTimerFire s now
      | none => s

theorem trackEvent_core (s : AState) (n p : String) (t : Nat) :
    (trackEvent s n p t).blocked = s.blocked ∧
    (trackEvent s n p t).loadAttempts = s.loadAttempts ∧
    (trackEvent s n p t).scriptPending = s.scriptPending ∧
    (trackEvent s n p t).pendingRetryDelay = s.pendingRetryDelay ∧
    (trackEvent s n p t).consentGiven = s.consentGiven ∧
    (trackEvent s n p t).storage = s.storage := by
  unfold trackEvent
  split
  · exact ⟨rfl, rfl, rfl, rfl, rfl, rfl⟩
  · split <;> exact ⟨rfl, rfl, rfl, rfl, rfl, rfl⟩

theorem foldl_trackEvent_core (q : List QueuedEvent) (s : AState) (now : Nat) :
    (q.foldl (fun st it => trackEvent st it.eventName it.eventParams.data now) s).blocked
      = s.blocked ∧
    (q.foldl (fun st it => trackEvent st it.eventName it.eventParams.data now) s).loadAttempts
      = s.loadAttempts ∧
    (q.foldl (fun st it => trackEvent st it.eventName it.eventParams.data now) s).scriptPending
      = s.scriptPending ∧
    (q.foldl (fun st it => trackEvent st it.eventName it.eventParams.data now) s).pendingRetryDelay
      = s.pendingRetryDelay ∧
    (q.foldl (fun st it => trackEvent st it.eventName it.eventParams.data now) s).consentGiven
      = s.consentGiven ∧
    (q.foldl (fun st it => trackEvent st it.eventName it.eventParams.data now) s).storage
      = s.storage := by
  induction q generalizing s with
  | nil => exact ⟨rfl, rfl, rfl, rfl, rfl, rfl⟩
  | cons it rest ih =>
      have h1 := trackEvent_core s it.eventName it.eventParams.data now
      have h2 := ih (trackEvent s it.eventName it.eventParams.data now)
      simp only [List.foldl_cons]
      exact ⟨h2.1.trans h1.1, h2.2.1.trans h1.2.1, h2.2.2.1.trans h1.2.2.1,
        h2.2.2.2.1.trans h1.2.2.2.1, h2.2.2.2.2.1.trans h1.2.2.2.2.1,
        h2.2.2.2.2.2.trans h1.2.2.2.2.2⟩

theorem processQueuedEvents_core (s : AState) (now : Nat) :
    (processQueuedEvents s now).blocked = s.blocked ∧
    (processQueuedEvents s now).loadAttempts = s.loadAttempts ∧
    (processQueuedEvents s now).scriptPending = s.scriptPending ∧
    (processQueuedEvents s now).pendingRetryDelay = s.pendingRetryDelay ∧
    (processQueuedEvents s now).consentGiven = s.consentGiven ∧
    (processQueuedEvents s now).storage = s.storage := by
  unfold processQueuedEvents
  split
  · exact ⟨rfl, rfl, rfl, rfl, rfl, rfl⟩
  · exact foldl_trackEvent_core s.eventQueue { s with eventQueue := [] } now

/-- The effect of `trackEvent` on a queued entry that is replayed at time
`now`: same name and data, timestamp overwritten. -/
def restamp (now : Nat) (it : QueuedEvent) : QueuedEvent :=
  { eventName := it.eventName,
    eventParams := { data := it.eventParams.data, timestamp := now } }

theorem trackEvent_queues (s : AState) (n p : String) (t : Nat)
    (hr : !s.consentGiven || s.blocked) (hn : n ≠ "") :
    trackEvent s n p t = { s with eventQueue := s.eventQueue ++
      [{ eventName := n, eventParams := { data := p, timestamp := t } }] } := by
  unfold trackEvent
  rw [if_neg hn, if_pos hr]

theorem trackEvent_sends (s : AState) (n p : String) (t : Nat)
    (hc : s.consentGiven = true) (hb : s.blocked = false) (hn : n ≠ "") :
    trackEvent s n p t = { s with sentEvents := s.sentEvents ++
      [{ eventName := n, eventParams := { data := p, timestamp := t } }] } := by
  unfold trackEvent
  rw [if_neg hn, if_neg]
  simp [hc, hb]

theorem foldl_replay_ready (q : List QueuedEvent) (s : AState) (now : Nat)
    (hc : s.consentGiven = true) (hb : s.blocked = false)
    (hn : ∀ e ∈ q, e.eventName ≠ "") :
    q.foldl (fun st it => trackEvent st it.eventName it.eventParams.data now) s
      = { s with sentEvents := s.sentEvents ++ q.map (restamp now) } := by
  induction q generalizing s with
  | nil => simp
  | cons it rest ih =>
      have hname : it.eventName ≠ "" := hn it (by simp)
      rw [List.foldl_cons, trackEvent_sends s _ _ _ hc hb hname]
      rw [ih { s with sentEvents := s.sentEvents ++
            [{ eventName := it.eventName,
               eventParams := { data := it.eventParams.data, timestamp := now } }] }
          hc hb (fun e he => hn e (by simp [he]))]
      simp [restamp]

theorem foldl_replay_blocked (q : List QueuedEvent) (s : AState) (now : Nat)
    (hb : s.blocked = true) (hn : ∀ e ∈ q, e.eventName ≠ "") :
    q.foldl (fun st it => trackEvent st it.eventName it.eventParams.data now) s
      = { s with eventQueue := s.eventQueue ++ q.map (restamp now) } := by
  induction q generalizing s with
  | nil => simp
  | cons it rest ih =>
      have hname : it.eventName ≠ "" := hn it (by simp)
      rw [List.foldl_cons, trackEvent_queues s _ _ _ (by simp [hb]) hname]
      rw [ih { s with eventQueue := s.eventQueue ++
            [{ eventName := it.eventName,
               eventParams := { data := it.eventParams.data, timestamp := now } }] }
          hb (fun e he => hn e (by simp [he]))]
      simp [restamp]

theorem processQueuedEvents_ready (s : AState) (now : Nat)
    (hc : s.consentGiven = true) (hb : s.blocked = false)
    (hn : ∀ e ∈ s.eventQueue, e.eventName ≠ "") :
    processQueuedEvents s now
      = { s with eventQueue := [],
                 sentEvents := s.sentEvents ++ s.eventQueue.map (restamp now) } := by
  unfold processQueuedEvents
  split
  · rename_i hq
    rw [hq, List.map_nil, List.append_nil]
    conv_rhs => rw [← hq]
  · rw [foldl_replay_ready s.eventQueue { s with eventQueue := [] } now hc hb hn]

theorem processQueuedEvents_blocked (s : AState) (now : Nat)
    (hb : s.blocked = true) (hn : ∀ e ∈ s.eventQueue, e.eventName ≠ "") :
    processQueuedEvents s now
      = { s with eventQueue := s.eventQueue.map (restamp now) } := by
  unfold processQueuedEvents
  split
  · rename_i hq
    rw [hq, List.map_nil]
    conv_rhs => rw [← hq]
  · rw [foldl_replay_blocked s.eventQueue { s with eventQueue := [] } now hb hn]
    simp

/-- The queue entry built by a `trackEvent(name, params)` call at its own
call time (a triple `(name, data, time)`). -/
def mkQueued (e : String × String × Nat) : QueuedEvent :=
  { eventName := e.1, eventParams := { data := e.2.1, timestamp := e.2.2 } }

/-- The delivered form of a tracked call once it is flushed at time `now`:
same name and data, timestamp replaced by the flush time. -/
def sentAt (now : Nat) (e : String × String × Nat) : QueuedEvent :=
  { eventName := e.1, eventParams := { data := e.2.1, timestamp := now } }

theorem foldl_track_triples (evs : List (String × String × Nat)) (s : AState)
    (hc : s.consentGiven = false) (hn : ∀ e ∈ evs, e.1 ≠ "") :
    evs.foldl (fun st e => trackEvent st e.1 e.2.1 e.2.2) s
      = { s with eventQueue := s.eventQueue ++ evs.map mkQueued } := by
  induction evs generalizing s with
  | nil => simp
  | cons e rest ih =>
      have hname : e.1 ≠ "" := hn e (by simp)
      rw [List.foldl_cons, trackEvent_queues s _ _ _ (by simp [hc]) hname]
      rw [ih { s with eventQueue := s.eventQueue ++
            [{ eventName := e.1, eventParams := { data := e.2.1, timestamp := e.2.2 } }] }
          hc (fun x hx => hn x (by simp [hx]))]
      simp [mkQueued]

theorem processQueuedEvents_ready_fields (t : AState) (now : Nat)
    (hc : t.consentGiven = true) (hb : t.blocked = false)
    (hn : ∀ e ∈ t.eventQueue, e.eventName ≠ "") :
    (processQueuedEvents t now).sentEvents
      = t.sentEvents ++ t.eventQueue.map (restamp now) ∧
    (processQueuedEvents t now).eventQueue = [] := by
  rw [processQueuedEvents_ready t now hc hb hn]
  exact ⟨rfl, rfl⟩

theorem updateConsent_true_ready (s : AState) (now : Nat)
    (hb : s.blocked = false) (hn : ∀ e ∈ s.eventQueue, e.eventName ≠ "") :
    (updateConsent s true now).sentEvents
      = s.sentEvents ++ s.eventQueue.map (restamp now) ∧
    (updateConsent s true now).eventQueue = [] := by
  unfold updateConsent
  rw [if_pos rfl]
  split
  · unfold loadGtagScript
    rename_i hcond
    have h0 : s.loadAttempts = 0 := by
      have h2 := (Bool.and_eq_true _ _ |>.mp hcond).2
      simpa using h2
    rw [if_neg (by simp only [storeConsent, retryAttempts]; omega)]
    apply processQueuedEvents_ready_fields
    · exact rfl
    · exact hb
    · exact hn
  · apply processQueuedEvents_ready_fields
    · exact rfl
    · exact hb
    · exact hn

/-- C2: events tracked while consent is not given are queued in arrival
order, and `updateConsent(true)` (client not blocked) delivers every queued
event exactly once, in the original FIFO order, leaving the queue empty. -/
theorem analytics_consent_flush_fifo (s : AState)
    (evs : List (String × String × Nat)) (now2 : Nat)
    (hc : s.consentGiven = false) (hb : s.blocked = false)
    (hq : s.eventQueue = []) (hn : ∀ e ∈ evs, e.1 ≠ "") :
    (updateConsent (evs.foldl (fun st e => trackEvent st e.1 e.2.1 e.2.2) s) true now2).sentEvents
      = s.sentEvents ++ evs.map (sentAt now2) ∧
    (updateConsent (evs.foldl (fun st e => trackEvent st e.1 e.2.1 e.2.2) s) true now2).eventQueue
      = [] := by
  rw [foldl_track_triples evs s hc hn, hq]
  have hres := updateConsent_true_ready
    { s with eventQueue := [] ++ evs.map mkQueued } now2 hb
    (by
      intro e he
      simp only [List.nil_append, List.mem_map] at he
      obtain ⟨x, hx, hxe⟩ := he
      rw [← hxe]
      exact hn x hx)
  refine ⟨?_, hres.2⟩
  rw [hres.1]
  simp [restamp, mkQueued, sentAt, List.map_map, Function.comp]

/-- A fresh client state: no consent decided, nothing stored, nothing
queued. -/
def freshAnalytics : AState := initialState none

theorem analytics_consent_flush_fifo_witness :
    freshAnalytics.consentGiven = false ∧
    freshAnalytics.blocked = false ∧
    freshAnalytics.eventQueue = [] ∧
    (∀ e ∈ [("cta_click", "hero", 3), ("app_store_click", "ios", 4)],
      (e : String × String × Nat).1 ≠ "") ∧
    ((updateConsent ([("cta_click", "hero", 3), ("app_store_click", "ios", 4)].foldl
        (fun st e => trackEvent st e.1 e.2.1 e.2.2) freshAnalytics) true 9).sentEvents
      = freshAnalytics.sentEvents ++
        [("cta_click", "hero", 3), ("app_store_click", "ios", 4)].map (sentAt 9) ∧
     (updateConsent ([("cta_click", "hero", 3), ("app_store_click", "ios", 4)].foldl
        (fun st e => trackEvent st e.1 e.2.1 e.2.2) freshAnalytics) true 9).eventQueue
      = []) :=
  ⟨rfl, rfl, rfl, by decide,
   analytics_consent_flush_fifo freshAnalytics
     [("cta_click", "hero", 3), ("app_store_click", "ios", 4)] 9
     rfl rfl rfl (by decide)⟩

/-- A client that has exhausted its script-load retries, with two queued
events. -/
def blockedSample : AState :=
  { initialState none with
    blocked := true, consentGiven := true, loadAttempts := 3,
    eventQueue := [{ eventName := "cta_click", eventParams := { data := "hero", timestamp := 5 } },
      { eventName := "app_store_click", eventParams := { data := "ios", timestamp := 6 } }] }

/-- C3 counterexample: in the Blocked state `processQueuedEvents` does not
empty the queue — `trackEvent` immediately re-queues every replayed event,
so the queue is non-empty afterwards. -/
theorem analytics_blocked_flush_leaves_queue :
    (processQueuedEvents blockedSample 10).eventQueue ≠ [] := by
  decide

/-- C3 amended: running `processQueuedEvents` in the Blocked state re-queues
every event (same names and data, refreshed timestamps, original order) and
delivers nothing; the events are retained, not discarded. -/
theorem analytics_blocked_process_requeues (s : AState) (now : Nat)
    (hb : s.blocked = true) (hn : ∀ e ∈ s.eventQueue, e.eventName ≠ "") :
    (processQueuedEvents s now).eventQueue = s.eventQueue.map (restamp now) ∧
    (processQueuedEvents s now).sentEvents = s.sentEvents := by
  rw [processQueuedEvents_blocked s now hb hn]
  exact ⟨rfl, rfl⟩

theorem analytics_blocked_process_requeues_witness :
    blockedSample.blocked = true ∧
    (∀ e ∈ blockedSample.eventQueue, e.eventName ≠ "") ∧
    ((processQueuedEvents blockedSample 10).eventQueue
       = blockedSample.eventQueue.map (restamp 10) ∧
     (processQueuedEvents blockedSample 10).sentEvents = blockedSample.sentEvents) :=
  ⟨rfl, by decide, analytics_blocked_process_requeues blockedSample 10 rfl (by decide)⟩

/-- C6: a stored consent record whose expiry is in the past reads back as
`null`, exactly like a missing record, and `init` produces the same state in
both cases. -/
theorem analytics_expired_consent_like_missing (r : ConsentRecord) (now : Nat)
    (h : r.expiry ≤ now) :
    getStoredConsent (some r) now = getStoredConsent none now ∧
    init (some r) now = init none now := by
  have hg : getStoredConsent (some r) now = (none, none) := by
    show (if now < r.expiry then (some r.consent, some r) else ((none : Option Bool), (none : Option ConsentRecord)))
      = (none, none)
    rw [if_neg (by omega)]
  refine ⟨by rw [hg]; rfl, ?_⟩
  show init (some r) now = init none now
  unfold init
  simp only [initialState]
  rw [hg]
  rfl

theorem analytics_expired_consent_like_missing_witness :
    ({ consent := true, expiry := 5 } : ConsentRecord).expiry ≤ 10 ∧
    (getStoredConsent (some { consent := true, expiry := 5 }) 10
       = getStoredConsent none 10 ∧
     init (some { consent := true, expiry := 5 }) 10 = init none 10) :=
  ⟨by decide, analytics_expired_consent_like_missing { consent := true, expiry := 5 } 10 (by decide)⟩

/-- The permanently Blocked configuration: blocked flag set, no script in
flight, no retry timer scheduled. -/
def BlockedQuiescent (s : AState) : Prop :=
  s.blocked = true ∧ s.scriptPending = false ∧ s.pendingRetryDelay = none

instance (s : AState) : Decidable (BlockedQuiescent s) := by
  unfold BlockedQuiescent
  infer_instance

theorem loadGtagScript_attempts_le (s : AState) (now : Nat)
    (h : s.loadAttempts ≤ retryAttempts) :
    (loadGtagScript s now).loadAttempts ≤ retryAttempts := by
  unfold loadGtagScript
  split
  · rw [(processQueuedEvents_core _ _).2.1]
    exact h
  · rename_i hlt
    push_neg at hlt
    exact hlt

theorem updateConsent_attempts_le (s : AState) (g : Bool) (now : Nat)
    (h : s.loadAttempts ≤ retryAttempts) :
    (updateConsent s g now).loadAttempts ≤ retryAttempts := by
  unfold updateConsent
  dsimp only
  have hstore : (storeConsent { s with consentGiven := g } g now).loadAttempts
      ≤ retryAttempts := h
  split
  · rw [(processQueuedEvents_core _ _).2.1]
    split
    · exact loadGtagScript_attempts_le _ _ hstore
    · exact hstore
  · split
    · exact loadGtagScript_attempts_le _ _ hstore
    · exact hstore

theorem astep_attempts_le (s : AState) (e : AStep)
    (h : s.loadAttempts ≤ retryAttempts) :
    (astep s e).loadAttempts ≤ retryAttempts := by
  cases e with
  | track n p now =>
      show (trackEvent s n p now).loadAttempts ≤ retryAttempts
      rw [(trackEvent_core s n p now).2.1]
      exact h
  | consent g now => exact updateConsent_attempts_le s g now h
  | scriptOk now =>
      show (if s.scriptPending then scriptOnload s now else s).loadAttempts ≤ retryAttempts
      split
      · show (scriptOnload s now).loadAttempts ≤ retryAttempts
        unfold scriptOnload
        rw [(processQueuedEvents_core _ _).2.1]
        exact h
      · exact h
  | scriptFail now =>
      show (if s.scriptPending then scriptOnerror s now else s).loadAttempts ≤ retryAttempts
      split
      · show (scriptOnerror s now).loadAttempts ≤ retryAttempts
        unfold scriptOnerror
        split
        · exact h
        · rw [(processQueuedEvents_core _ _).2.1]
          exact h
      · exact h
  | timerFire now =>
      show (match s.pendingRetryDelay with
        | some _ => retryTimerFire s now
        | none => s).loadAttempts ≤ retryAttempts
      cases hp : s.pendingRetryDelay with
      | some d =>
          show (retryTimerFire s now).loadAttempts ≤ retryAttempts
          unfold retryTimerFire
          exact loadGtagScript_attempts_le _ _ h
      | none => exact h

theorem astep_BQ (s : AState) (e : AStep) (h : BlockedQuiescent s) :
    BlockedQuiescent (astep s e) ∧ (astep s e).loadAttempts = s.loadAttempts := by
  obtain ⟨hb, hsp, hpr⟩ := h
  cases e with
  | track n p now =>
      have hc := trackEvent_core s n p now
      exact ⟨⟨hc.1.trans hb, hc.2.2.1.trans hsp, hc.2.2.2.1.trans hpr⟩, hc.2.1⟩
  | consent g now =>
      show BlockedQuiescent (updateConsent s g now) ∧
        (updateConsent s g now).loadAttempts = s.loadAttempts
      unfold updateConsent
      dsimp only
      have hsb : (storeConsent { s with consentGiven := g } g now).blocked = true := hb
      have hcond : (g && !(storeConsent { s with consentGiven := g } g now).blocked
          && ((storeConsent { s with consentGiven := g } g now).loadAttempts == 0)) = false := by
        rw [hsb]
        simp
      rw [hcond, if_neg (show ¬(false = true) by simp)]
      split
      · have hc := processQueuedEvents_core
          (storeConsent { s with consentGiven := g } g now) now
        exact ⟨⟨hc.1.trans hb, hc.2.2.1.trans hsp, hc.2.2.2.1.trans hpr⟩, hc.2.1⟩
      · exact ⟨⟨hb, hsp, hpr⟩, rfl⟩
  | scriptOk now =>
      show BlockedQuiescent (if s.scriptPending then scriptOnload s now else s) ∧
        (if s.scriptPending then scriptOnload s now else s).loadAttempts = s.loadAttempts
      rw [if_neg (by simp [hsp])]
      exact ⟨⟨hb, hsp, hpr⟩, rfl⟩
  | scriptFail now =>
      show BlockedQuiescent (if s.scriptPending then scriptOnerror s now else s) ∧
        (if s.scriptPending then scriptOnerror s now else s).loadAttempts = s.loadAttempts
      rw [if_neg (by simp [hsp])]
      exact ⟨⟨hb, hsp, hpr⟩, rfl⟩
  | timerFire now =>
      simp only [astep]
      rw [hpr]
      exact ⟨⟨hb, hsp, hpr⟩, rfl⟩

theorem foldl_astep_attempts_le (steps : List AStep) (s : AState)
    (h : s.loadAttempts ≤ retryAttempts) :
    (steps.foldl astep s).loadAttempts ≤ retryAttempts := by
  induction steps generalizing s with
  | nil => exact h
  | cons e rest ih => exact ih _ (astep_attempts_le s e h)

theorem foldl_astep_BQ (steps : List AStep) (s : AState) (h : BlockedQuiescent s) :
    BlockedQuiescent (steps.foldl astep s) ∧
    (steps.foldl astep s).loadAttempts = s.loadAttempts := by
  induction steps generalizing s with
  | nil => exact ⟨h, rfl⟩
  | cons e rest ih =>
      have h1 := astep_BQ s e h
      have h2 := ih (astep s e) h1.1
      exact ⟨h2.1, h2.2.trans h1.2⟩

/-- C5: the gtag script load is attempted at most `retryAttempts` times
(`loadAttempts` never exceeds the cap along any event trace); the delay
scheduled before the k-th retry is `retryDelay * k` (linearly increasing);
and once the client is Blocked with no script in flight and no timer
pending, every later operation — consent updates, trackEvent calls, stray
callbacks — keeps it Blocked and never starts another load attempt. -/
theorem analytics_retry_policy :
    (∀ (s : AState) (steps : List AStep), s.loadAttempts ≤ retryAttempts →
      (steps.foldl astep s).loadAttempts ≤ retryAttempts) ∧
    (∀ (s : AState) (now : Nat), s.scriptPending = true →
      s.loadAttempts < retryAttempts →
      (astep s (AStep.scriptFail now)).pendingRetryDelay
        = some (retryDelay * s.loadAttempts)) ∧
    (∀ (s : AState) (steps : List AStep), BlockedQuiescent s →
      BlockedQuiescent (steps.foldl astep s) ∧
      (steps.foldl astep s).loadAttempts = s.loadAttempts) := by
  refine ⟨fun s steps h => foldl_astep_attempts_le steps s h, ?_,
    fun s steps h => foldl_astep_BQ steps s h⟩
  intro s now hsp hlt
  show (if s.scriptPending then scriptOnerror s now else s).pendingRetryDelay
    = some (retryDelay * s.loadAttempts)
  rw [if_pos hsp]
  unfold scriptOnerror
  rw [if_pos hlt]

/-- The consent-then-repeated-failure trace that exhausts all three load
attempts. -/
def blockedTrace : List AStep :=
  [AStep.consent true 1, AStep.scriptFail 2, AStep.timerFire 3,
   AStep.scriptFail 4, AStep.timerFire 5, AStep.scriptFail 6]

/-- The state reached after the retries are exhausted. -/
def blockedEnd : AState := blockedTrace.foldl astep freshAnalytics

theorem analytics_retry_policy_witness :
    (freshAnalytics.loadAttempts ≤ retryAttempts ∧
     ((blockedTrace ++ [AStep.track "cta_click" "hero" 8]).foldl astep
        freshAnalytics).loadAttempts ≤ retryAttempts) ∧
    ((astep freshAnalytics (AStep.consent true 1)).scriptPending = true ∧
     (astep freshAnalytics (AStep.consent true 1)).loadAttempts < retryAttempts ∧
     (astep (astep freshAnalytics (AStep.consent true 1)) (AStep.scriptFail 2)).pendingRetryDelay
       = some (retryDelay * (astep freshAnalytics (AStep.consent true 1)).loadAttempts)) ∧
    (BlockedQuiescent blockedEnd ∧
     (BlockedQuiescent ([AStep.consent true 9, AStep.track "cta_click" "hero" 10].foldl
        astep blockedEnd) ∧
      ([AStep.consent true 9, AStep.track "cta_click" "hero" 10].foldl
        astep blockedEnd).loadAttempts = blockedEnd.loadAttempts)) :=
  ⟨⟨by decide,
    analytics_retry_policy.1 freshAnalytics
      (blockedTrace ++ [AStep.track "cta_click" "hero" 8]) (by decide)⟩,
   ⟨by decide, by decide,
    analytics_retry_policy.2.1 (astep freshAnalytics (AStep.consent true 1)) 2
      (by decide) (by decide)⟩,
   ⟨by decide,
    analytics_retry_policy.2.2 blockedEnd
      [AStep.consent true 9, AStep.track "cta_click" "hero" 10] (by decide)⟩⟩

end Analytics

namespace LazyLoad

/-- `CONFIG.maxRetries`. -/
def maxRetries : Nat := 3

/-- `CONFIG.retryDelay` (milliseconds). -/
def retryDelay : Nat := 1000

/-- `CONFIG.errorImage` (the workout placeholder substituted on permanent
failure). -/
def errorImage : String :=
  "data:image/svg+xml,%3Csvg xmlns=\"http://www.w3.org/2000/svg\" viewBox=\"0 0 400 250\" fill=\"none\"%3E%3Crect width=\"400\" height=\"250\" fill=\"%23f3f4f6\"/%3E%3Cpath d=\"M200 100c-11 0-20 9-20 20s9 20 20 20 20-9 20-20-9-20-20-20zm0 50c-16.5 0-30-13.5-30-30s13.5-30 30-30 30 13.5 30 30-13.5 30-30 30z\" fill=\"%239ca3af\"/%3E%3C/svg%3E"

/-- One lazily loaded image: its `src`, its `data-src` attribute, the three
styling classes, the `aria-busy` attribute, its `state.retryCount` entry
(0 when absent) and its `state.loadingImages` membership. -/
structure ImgState where
  src : String
  dataSrc : Option String
  placeholderClass : Bool
  loadedClass : Bool
  errorClass : Bool
  ariaBusy : Bool
  retries : Nat
  loading : Bool
deriving DecidableEq, Repr

/-- `handleImageError(img)`: substitute the error asset, mark the element
errored, clear busy state and `data-src`. -/
def handleImageError (img : ImgState) : ImgState :=
  { img with
    src := errorImage, placeholderClass := false, errorClass := true,
    ariaBusy := false, dataSrc := none }

/-- `loadImageWithRetry(img, src)` driven by the list of network outcomes of
the successive preload attempts (`true` = load succeeded).  Returns the final
element state, the number of attempts that resolved, and the backoff delays
waited between attempts.  An empty outcome list means the current attempt is
still in flight. -/
def loadImageWithRetry : ImgState → String → List Bool → ImgState × Nat × List Nat
  | img, _, [] => ({ img with loading := false }, 0, [])
  | img, src, ok :: rest =>
    if ok then
      ({ img with
         src := src, dataSrc := none, placeholderClass := false,
         loadedClass := true, ariaBusy := false, retries := 0, loading := false }, 1, [])
    else if img.retries < maxRetries then
      let res := loadImageWithRetry { img with retries := img.retries + 1 } src rest
      (res.1, res.2.1 + 1, (retryDelay * 2 ^ img.retries) :: res.2.2)
    else
      ({ handleImageError img with loading := false }, 1, [])

/-- `processImage(img)`: returns the (possibly updated) element and whether a
new load was started (skipped when already loading or without `data-src`). -/
def processImage (img : ImgState) : ImgState × Bool :=
  if img.loading then (img, false)
  else
    match img.dataSrc with
    | none => (img, false)
    | some src =>
        if src = "" then (img, false)
        else ({ img with loading := true, ariaBusy := true }, true)

/-- A freshly observed workout image whose load has just been started by
`processImage`. -/
def demoImg : ImgState :=
  { src := "placeholder", dataSrc := some "workout.jpg", placeholderClass := true,
    loadedClass := false, errorClass := false, ariaBusy := true, retries := 0,
    loading := true }

/-- C4 counterexample: after exactly `maxRetries` (= 3) consecutive failures
the element has NOT reached the error state, and a further (fourth) network
attempt is made when the load keeps failing. -/
theorem lazy_maxRetries_failures_not_errored :
    ((loadImageWithRetry demoImg "workout.jpg" [false, false, false]).1).errorClass = false ∧
    (loadImageWithRetry demoImg "workout.jpg" [false, false, false, false]).2.1
      = maxRetries + 1 := by
  decide

/-- C4 amended: after exactly `maxRetries + 1` consecutive failures (the
initial attempt plus `maxRetries` retries, with exponential backoff delays
in between), the element reaches the permanent error state — error image
substituted, error class set — and no further network attempt occurs:
the outcome of the run is independent of any further outcomes, and
`processImage` refuses to start a new load on the errored element. -/
theorem lazy_error_after_all_retries (img : ImgState) (src : String)
    (rest : List Bool) (h : img.retries = 0) :
    loadImageWithRetry img src (List.replicate (maxRetries + 1) false ++ rest)
      = ({ handleImageError { img with retries := maxRetries } with loading := false },
         maxRetries + 1,
         [retryDelay * 2 ^ 0, retryDelay * 2 ^ 1, retryDelay * 2 ^ 2]) ∧
    (processImage
      ({ handleImageError { img with retries := maxRetries } with loading := false })).2
      = false := by
  obtain ⟨s0, d0, p0, l0, e0, a0, r0, g0⟩ := img
  simp only at h
  subst h
  exact ⟨rfl, rfl⟩

theorem lazy_error_after_all_retries_witness :
    demoImg.retries = 0 ∧
    (loadImageWithRetry demoImg "workout.jpg" (List.replicate (maxRetries + 1) false ++ [])
       = ({ handleImageError { demoImg with retries := maxRetries } with loading := false },
          maxRetries + 1,
          [retryDelay * 2 ^ 0, retryDelay * 2 ^ 1, retryDelay * 2 ^ 2]) ∧
     (processImage
       ({ handleImageError { demoImg with retries := maxRetries } with loading := false })).2
       = false) :=
  ⟨rfl, lazy_error_after_all_retries demoImg "workout.jpg" [] rfl⟩

end LazyLoad

namespace Nav

/-- The navigation module state: the menu flag, the captured previously
focused element, the cached focusable set, plus the ARIA/data attributes and
the body scroll lock the menu code toggles.  DOM elements are identified by
numeric ids; `activeElement` is `document.activeElement`. -/
structure NavState where
  isMenuOpen : Bool
  lastFocusedElement : Option Nat
  focusableElements : List Nat
  activeElement : Nat
  navToggleExpanded : Bool
  menuHidden : Bool
  overlayHidden : Bool
  menuVisible : Bool
  overlayVisible : Bool
  bodyScrollLocked : Bool
deriving DecidableEq, Repr

/-- `openMenu()` with the menu's focusable elements `menuFocusables`:
captures `document.activeElement`, updates attributes, and (after the
transition timeout) focuses the first focusable element of the menu. -/
def openMenu (s : NavState) (menuFocusables : List Nat) : NavState :=
  if s.isMenuOpen then s
  else
    let s1 := { s with
      isMenuOpen := true, lastFocusedElement := some s.activeElement,
      navToggleExpanded := true, menuHidden := false, overlayHidden := false,
      menuVisible := true, overlayVisible := true, bodyScrollLocked := true,
      focusableElements := menuFocusables }
    match menuFocusables with
    | [] => s1
    | f :: _ => { s1 with activeElement := f }

/-- `closeMenu()`: resets attributes and restores focus to the captured
element. -/
def closeMenu (s : NavState) : NavState :=
  if !s.isMenuOpen then s
  else
    let s1 := { s with
      isMenuOpen := false, navToggleExpanded := false, menuHidden := true,
      overlayHidden := true, menuVisible := false, overlayVisible := false,
      bodyScrollLocked := false }
    let s2 := (match s1.lastFocusedElement with
      | some e => { s1 with activeElement := e }
      | none => s1)
    { s2 with focusableElements := [] }

/-- C10: for every element focused immediately before the menu opens,
`openMenu` records that element and moves focus into the menu (its first
focusable element), and a subsequent `closeMenu` restores focus to exactly
the recorded element. -/
theorem nav_open_close_restores_focus (s : NavState) (m : List Nat)
    (h : s.isMenuOpen = false) (hm : m ≠ []) :
    (openMenu s m).lastFocusedElement = some s.activeElement ∧
    (openMenu s m).activeElement ∈ m ∧
    (closeMenu (openMenu s m)).activeElement = s.activeElement := by
  cases m with
  | nil => exact absurd rfl hm
  | cons f rest =>
      refine ⟨?_, ?_, ?_⟩ <;> simp [openMenu, closeMenu, h]

/-- A page state with the menu closed and a header link (element 42)
focused. -/
def demoNav : NavState :=
  { isMenuOpen := false, lastFocusedElement := none, focusableElements := [],
    activeElement := 42, navToggleExpanded := false, menuHidden := true,
    overlayHidden := true, menuVisible := false, overlayVisible := false,
    bodyScrollLocked := false }

theorem nav_open_close_restores_focus_witness :
    demoNav.isMenuOpen = false ∧
    ([7, 8, 9] : List Nat) ≠ [] ∧
    ((openMenu demoNav [7, 8, 9]).lastFocusedElement = some demoNav.activeElement ∧
     (openMenu demoNav [7, 8, 9]).activeElement ∈ ([7, 8, 9] : List Nat) ∧
     (closeMenu (openMenu demoNav [7, 8, 9])).activeElement = demoNav.activeElement) :=
  ⟨rfl, by decide, nav_open_close_restores_focus demoNav [7, 8, 9] rfl (by decide)⟩

end Nav
